import Mathlib

/-!
Verification of the video-to-notes transcription pipeline.

Shallow embedding of the core of the repository:
* the document chunker and per-window section generator of `src/ai.py`
  (`generate_tutorial_notes`, `check_ollama_server`),
* the timestamp renderer and segment stream of `src/transcriber.py`
  (`format_timestamp`, `transcribe_audio`),
* the human-readable transcript writer of `src/formatter.py` (`save_transcript`),
* the orchestrator of `main.py` (`main`), including its `try/except/finally`
  cleanup contract and the generated-notes path computation.

Python strings are modelled as `List Char`; fractional-second timestamps as `ℚ`;
calls into external collaborators (ffmpeg, whisper, ollama, the file system) are
modelled by oracle parameters recording each collaborator's outcome.
-/

set_option maxRecDepth 100000

namespace VideoToNotes

/-! ## Document chunker (src/ai.py, generate_tutorial_notes lines 22-31)

Python loop:
```
chunk_size = 15000
overlap = 500
chunks = []
start = 0
while start < len(transcript_text):
    end = start + chunk_size
    chunk = transcript_text[start:end]
    chunks.append(chunk)
    start += chunk_size - overlap
```
`transcript_text[start:start+15000]` is `(text.drop start).take 15000`, and the
step `chunk_size - overlap` is 14500. -/

def chunksFrom (text : List Char) (start : Nat) : List (List Char) :=
  if _h : start < text.length then
    ((text.drop start).take 15000) :: chunksFrom text (start + 14500)
  else
    []
termination_by text.length - start
decreasing_by omega

/-- The chunk list built by the loop in `generate_tutorial_notes`. -/
def chunks (text : List Char) : List (List Char) := chunksFrom text 0

lemma chunksFrom_stop (text : List Char) (start : Nat) (h : ¬ start < text.length) :
    chunksFrom text start = [] := by
  rw [chunksFrom, dif_neg h]

lemma chunksFrom_step (text : List Char) (start : Nat) (h : start < text.length) :
    chunksFrom text start = ((text.drop start).take 15000) :: chunksFrom text (start + 14500) := by
  rw [chunksFrom, dif_pos h]

lemma chunksFrom_ne_nil (text : List Char) (start : Nat) (h : start < text.length) :
    chunksFrom text start ≠ [] := by
  rw [chunksFrom_step text start h]
  simp

lemma chunksFrom_spec_aux (text : List Char) (fuel : Nat) :
    ∀ (start : Nat), text.length ≤ start + fuel →
    start < text.length →
    (text.length - start ≤ 14500 ∨ (text.length - start) % 14500 = 0 ∨
      500 ≤ (text.length - start) % 14500) →
    (((chunksFrom text start).map List.length).sum : ℤ)
      = ((text.length : ℤ) - start) + 500 * (((chunksFrom text start).length : ℤ) - 1) := by
  induction fuel with
  | zero =>
    intro start hf hlt _
    omega
  | succ f ih =>
    intro start hf hlt hcond
    rw [chunksFrom_step text start hlt]
    by_cases h2 : start + 14500 < text.length
    · have hge : 15000 ≤ text.length - start := by omega
      have hc' : text.length - (start + 14500) ≤ 14500 ∨
          (text.length - (start + 14500)) % 14500 = 0 ∨
          500 ≤ (text.length - (start + 14500)) % 14500 := by omega
      have ihx := ih (start + 14500) (by omega) h2 hc'
      have hne : chunksFrom text (start + 14500) ≠ [] := chunksFrom_ne_nil text _ h2
      have hlen1 : ((text.drop start).take 15000).length = 15000 := by
        simp [List.length_take, List.length_drop]
        omega
      have hcnt : 1 ≤ (chunksFrom text (start + 14500)).length :=
        List.length_pos.mpr hne
      generalize hrest : chunksFrom text (start + 14500) = rest at ihx hcnt ⊢
      rw [List.map_cons, List.sum_cons, hlen1, List.length_cons]
      push_cast
      push_cast at ihx
      omega
    · have hrest : chunksFrom text (start + 14500) = [] := chunksFrom_stop text _ h2
      have hlen1 : ((text.drop start).take 15000).length = text.length - start := by
        simp [List.length_take, List.length_drop]
        omega
      rw [hrest]
      simp only [List.map_cons, List.sum_cons, hlen1, List.length_cons, List.map_nil,
        List.sum_nil, List.length_nil]
      push_cast
      omega

lemma chunks_spec (text : List Char) (hne : text ≠ [])
    (hcond : text.length ≤ 14500 ∨ text.length % 14500 = 0 ∨ 500 ≤ text.length % 14500) :
    (((chunks text).map List.length).sum : ℤ)
      = (text.length : ℤ) + 500 * (((chunks text).length : ℤ) - 1) := by
  have hlt : 0 < text.length := List.length_pos.mpr hne
  have := chunksFrom_spec_aux text text.length 0 (by omega) hlt (by omega)
  simpa [chunks] using this

/-- Chunking a replicate string whose length lies in (14500, 15000] yields two
windows: the whole text (the slice `[0:15000]` is clipped to the text) and the
tail from offset 14500. -/
lemma chunks_replicate_mid (n : Nat) (h1 : 14500 < n) (h2 : n ≤ 15000) :
    chunks (List.replicate n 'a')
      = [List.replicate n 'a', List.replicate (n - 14500) 'a'] := by
  have hlen : (List.replicate n 'a').length = n := List.length_replicate _ _
  unfold chunks
  rw [chunksFrom_step _ _ (by rw [hlen]; omega)]
  rw [chunksFrom_step _ _ (by rw [hlen]; omega)]
  rw [chunksFrom_stop _ _ (by rw [hlen]; omega)]
  rw [List.drop_zero, List.take_replicate, List.drop_replicate, List.take_replicate]
  rw [min_eq_right (by omega : n ≤ 15000), min_eq_right (by omega : n - 14500 ≤ 15000)]

/-- C1 counterexample: on a 14501-character text the loop emits two windows,
`text[0:15000]` (all 14501 characters, clipped) and `text[14500:29500]`
(1 character), so `length(concat(windows)) - overlap*(count-1)` is
`14502 - 500 = 14002`, not `14501`: the reconstruction law fails even though
the text is non-empty and `overlap < window`. -/
theorem C1_counterexample :
    ¬ (((chunks (List.replicate 14501 'a')).flatten.length : ℤ)
        - 500 * (((chunks (List.replicate 14501 'a')).length : ℤ) - 1)
        = (List.replicate 14501 'a').length) := by
  rw [chunks_replicate_mid 14501 (by omega) (by omega)]
  have h2 : ([List.replicate 14501 'a', List.replicate (14501 - 14500) 'a']
      : List (List Char)).flatten.length = 14502 := by
    rw [List.length_flatten]
    simp only [List.map_cons, List.map_nil, List.sum_cons, List.sum_nil,
      List.length_replicate]
    omega
  rw [h2, List.length_replicate]
  norm_num

/-- C1 (amended): the chunker reconstruction law
`length(concat(windows)) - overlap*(count(windows)-1) = length(text)` holds for
every non-empty text whose length is at most 14500 (`window - overlap`) or
whose remainder modulo 14500 is zero or at least 500 — equivalently, whenever
no window other than the final one is clipped by the end of the text. -/
theorem C1_chunker_reconstruction (text : List Char) (hne : text ≠ [])
    (hcond : text.length ≤ 14500 ∨ text.length % 14500 = 0 ∨
      500 ≤ text.length % 14500) :
    ((chunks text).flatten.length : ℤ)
      - 500 * (((chunks text).length : ℤ) - 1) = text.length := by
  have h := chunks_spec text hne hcond
  rw [List.length_flatten]
  omega

/-- C1 witness: the reconstruction law, instantiated on the concrete
three-character text "abc". -/
theorem C1_chunker_reconstruction_witness :
    ("abc".data ≠ [] ∧ ("abc".data.length ≤ 14500 ∨ "abc".data.length % 14500 = 0 ∨
      500 ≤ "abc".data.length % 14500)) ∧
    ((chunks "abc".data).flatten.length : ℤ)
      - 500 * (((chunks "abc".data).length : ℤ) - 1) = "abc".data.length :=
  ⟨⟨by decide, by decide⟩,
    C1_chunker_reconstruction "abc".data (by decide) (by decide)⟩

/-- C2 counterexample: the 14600-character text is not longer than the window
(15000), yet the chunker produces two windows, not one — after the first
window the offset 14500 is still inside the text, so the loop runs again. -/
theorem C2_counterexample :
    (List.replicate 14600 'a').length ≤ 15000 ∧
    chunks (List.replicate 14600 'a') ≠ [List.replicate 14600 'a'] := by
  constructor
  · rw [List.length_replicate]
    omega
  · rw [chunks_replicate_mid 14600 (by omega) (by omega)]
    intro h
    have := congrArg List.length h
    simp only [List.length_cons, List.length_nil] at this
    omega

/-- C2 (amended): for every non-empty text of length at most 14500
(`window - overlap`, not the window length 15000), the chunker produces
exactly one window equal to the whole input text. -/
theorem C2_single_window (text : List Char) (hne : text ≠ [])
    (hlen : text.length ≤ 14500) :
    chunks text = [text] := by
  have hpos : 0 < text.length := List.length_pos.mpr hne
  unfold chunks
  rw [chunksFrom_step _ _ hpos, chunksFrom_stop _ _ (by omega)]
  rw [List.drop_zero, List.take_of_length_le (by omega)]

/-- C2 witness: the single-window law instantiated on the concrete text "hi". -/
theorem C2_single_window_witness :
    ("hi".data ≠ [] ∧ "hi".data.length ≤ 14500) ∧ chunks "hi".data = ["hi".data] :=
  ⟨⟨by decide, by decide⟩, C2_single_window "hi".data (by decide) (by decide)⟩

/-! ## Timestamp rendering (src/transcriber.py, format_timestamp lines 6-11)

Python:
```
def format_timestamp(seconds: float) -> str:
    td = timedelta(seconds=seconds)
    total_seconds = int(td.total_seconds())
    minutes, remainder = divmod(total_seconds, 60)
    return f"{minutes:02d}:{remainder:02d}"
```
Seconds are modelled as exact rationals; for the non-negative inputs the spec
talks about, `int(...)` truncation is the floor. `{n:02d}` zero-pads a
non-negative integer to width two (wider numbers are printed in full). -/

def pad2 (n : Nat) : List Char :=
  if n < 10 then '0' :: (Nat.repr n).data else (Nat.repr n).data

def format_timestamp (seconds : ℚ) : List Char :=
  pad2 (Int.toNat ⌊seconds⌋ / 60) ++ ':' :: pad2 (Int.toNat ⌊seconds⌋ % 60)

/-- C8: `format_timestamp` truncates a non-negative fractional-seconds value to
whole-second granularity (it agrees with `format_timestamp` of the floor), and
renders zero-padded `MM:SS`: 75.4 s gives "01:15" and 3599.9 s gives "59:59". -/
theorem C8_timestamp_rendering :
    (∀ seconds : ℚ, 0 ≤ seconds →
        format_timestamp seconds = format_timestamp (⌊seconds⌋ : ℚ)) ∧
    format_timestamp (754/10) = "01:15".data ∧
    format_timestamp (35999/10) = "59:59".data := by
  refine ⟨?_, ?_, ?_⟩
  · intro seconds _
    simp only [format_timestamp, Int.floor_intCast]
  · have h75 : ⌊(754/10 : ℚ)⌋ = 75 := by norm_num
    simp only [format_timestamp, h75]
    decide
  · have h3599 : ⌊(35999/10 : ℚ)⌋ = 3599 := by norm_num
    simp only [format_timestamp, h3599]
    decide

/-- C8 witness: truncation instantiated at the concrete input 80.5 seconds. -/
theorem C8_timestamp_rendering_witness :
    (0 : ℚ) ≤ 161/2 ∧
      format_timestamp (161/2) = format_timestamp (⌊(161/2 : ℚ)⌋ : ℚ) :=
  ⟨by norm_num, C8_timestamp_rendering.1 (161/2) (by norm_num)⟩

/-- C10: `format_timestamp` has no hours component — for any value of 3600
seconds or more the minutes field is `floor(seconds) / 60`, printed in full
(at least 60, hence at least two digits wide); 3600 s renders as "60:00" and
7200 s as "120:00". -/
theorem C10_no_hours_component :
    (∀ seconds : ℚ, (3600 : ℚ) ≤ seconds →
        60 ≤ Int.toNat ⌊seconds⌋ / 60 ∧
        format_timestamp seconds
          = (Nat.repr (Int.toNat ⌊seconds⌋ / 60)).data
              ++ ':' :: pad2 (Int.toNat ⌊seconds⌋ % 60)) ∧
    format_timestamp 3600 = "60:00".data ∧
    format_timestamp 7200 = "120:00".data := by
  refine ⟨?_, ?_, ?_⟩
  · intro seconds hs
    have hfl : (3600 : ℤ) ≤ ⌊seconds⌋ := Int.le_floor.mpr (by exact_mod_cast hs)
    have hm : 60 ≤ Int.toNat ⌊seconds⌋ / 60 := by omega
    refine ⟨hm, ?_⟩
    rw [format_timestamp, pad2, if_neg (by omega)]
  · have h : ⌊(3600 : ℚ)⌋ = 3600 := by norm_num
    simp only [format_timestamp, h]
    decide
  · have h : ⌊(7200 : ℚ)⌋ = 7200 := by norm_num
    simp only [format_timestamp, h]
    decide

/-- C10 witness: the no-hours rendering instantiated at 3700 seconds. -/
theorem C10_no_hours_component_witness :
    (3600 : ℚ) ≤ 3700 ∧
      (60 ≤ Int.toNat ⌊(3700 : ℚ)⌋ / 60 ∧
        format_timestamp 3700
          = (Nat.repr (Int.toNat ⌊(3700 : ℚ)⌋ / 60)).data
              ++ ':' :: pad2 (Int.toNat ⌊(3700 : ℚ)⌋ % 60)) :=
  ⟨by norm_num, C10_no_hours_component.1 3700 (by norm_num)⟩

/-! ## Segment stream adapter (src/transcriber.py, transcribe_audio lines 13-42)

Python:
```
def transcribe_audio(audio_path, model_size="medium", device="cuda", compute_type="float16"):
    if not os.path.exists(audio_path):
        raise FileNotFoundError(f"Audio file not found: {audio_path}")
    ...
    segments, info = model.transcribe(audio_path, beam_size=5)
    ...
    for segment in segments:
        yield {"start": format_timestamp(segment.start),
               "end": format_timestamp(segment.end),
               "text": segment.text.strip()}
```
`transcribe_audio` contains `yield`, so in Python it is a generator function:
calling it runs none of the body and always returns a generator object; the
body (including the existence check and the `raise`) runs only when the caller
first pulls from the generator. The model below keeps the two phases separate:
`transcribe_audio` is the call (it always succeeds, yielding a `PyGen`), and
`PyGen.run` is the materialization of the sequence, which is where the body
executes. The recognition model is an external collaborator, so its output is
an oracle parameter `raw`. -/

/-- A raw timed span produced by the recognition model: fractional-second start
and end times plus the raw text. -/
structure RawSegment where
  start : ℚ
  stop : ℚ
  text : List Char

/-- A formatted transcript segment as yielded by `transcribe_audio`:
rendered start/end timestamps and stripped text. -/
structure Segment where
  start : List Char
  stop : List Char
  text : List Char
deriving DecidableEq

/-- The whitespace set stripped by Python str.strip(). -/
def pythonSpace (c : Char) : Bool :=
  c = ' ' || c = '\t' || c = '\n' || c = '\r' || c = '\x0b' || c = '\x0c'

/-- Python str.strip(): remove leading and trailing whitespace. -/
def pyStrip (s : List Char) : List Char :=
  ((s.dropWhile pythonSpace).reverse.dropWhile pythonSpace).reverse

/-- The dict yielded per raw segment by the loop in `transcribe_audio`. -/
def segment_of_raw (r : RawSegment) : Segment :=
  { start := format_timestamp r.start
    stop := format_timestamp r.stop
    text := pyStrip r.text }

/-- A Python generator object: its body runs (and can raise) only when the
caller pulls from it; `run` materializes the full yielded sequence, as
`list(segments)` does in `main.py`. -/
structure PyGen (α : Type) where
  run : Except (List Char) (List α)

/-- The body of the `transcribe_audio` generator: the existence check and
`raise FileNotFoundError` happen here, before any segment is yielded. -/
def transcribe_audio_body (audioExists : Bool) (audio_path : List Char)
    (raw : List RawSegment) : Except (List Char) (List Segment) :=
  if audioExists then Except.ok (raw.map segment_of_raw)
  else Except.error ("Audio file not found: ".data ++ audio_path)

/-- Calling the generator function `transcribe_audio`: per Python semantics
this never raises — it packages the (not yet run) body as a generator. -/
def transcribe_audio (audioExists : Bool) (audio_path : List Char)
    (raw : List RawSegment) : Except (List Char) (PyGen Segment) :=
  Except.ok { run := transcribe_audio_body audioExists audio_path raw }

/-- C9 counterexample: invoking `transcribe_audio` on a path that does not
exist does NOT fail at the point of invocation — the call returns a generator
object, never an error, because the function body of a Python generator does
not run until the first pull. -/
theorem C9_counterexample :
    ¬ ∃ e, transcribe_audio false "missing.wav".data [] = Except.error e := by
  rintro ⟨e, h⟩
  simp [transcribe_audio] at h

/-- C9 (amended): for every missing audio path, the invocation itself succeeds
with a generator, and the NotFound error surfaces on the first pull from that
generator, before any segment is produced. -/
theorem C9_notfound_on_first_pull (audio_path : List Char) (raw : List RawSegment) :
    ∃ g, transcribe_audio false audio_path raw = Except.ok g ∧
      g.run = Except.error ("Audio file not found: ".data ++ audio_path) := by
  refine ⟨_, rfl, ?_⟩
  simp [transcribe_audio_body]

/-! ## Human-readable transcript writer (src/formatter.py, save_transcript 17-26)

Python (markdown branch):
```
with open(output_path, "w", encoding="utf-8") as f:
    f.write(f"# Video Transcript\n\n")
    for segment in transcript_generator:
        line = f"**SEGSTART - SEGEND**: SEGTEXT\n"
        f.write(line)
        f.flush()
```
The file content is the concatenation of the writes, in order. -/

/-- The per-segment line content, without its terminating newline. -/
def segment_body (s : Segment) : List Char :=
  "**".data ++ s.start ++ " - ".data ++ s.stop ++ "**: ".data ++ s.text

/-- The per-segment write of `save_transcript` (markdown branch). -/
def segment_line (s : Segment) : List Char := segment_body s ++ [ '\n']

/-- The full file content written by the markdown branch of `save_transcript`:
the header write followed by one line write per segment, in input order. -/
def save_transcript_markdown (segs : List Segment) : List Char :=
  "# Video Transcript\n\n".data ++ (segs.map segment_line).flatten

/-- Observation function: split file content into newline-terminated lines
(a trailing unterminated fragment counts as a final line). -/
def splitLines : List Char → List (List Char)
  | [] => []
  | c :: cs =>
    if c = '\n' then [] :: splitLines cs
    else
      match splitLines cs with
      | [] => [[c]]
      | l :: ls => (c :: l) :: ls

lemma splitLines_newline_cons (cs : List Char) :
    splitLines ( '\n' :: cs) = [] :: splitLines cs := by
  simp [splitLines]

lemma splitLines_append (xs ys : List Char) (h : '\n' ∉ xs) :
    splitLines (xs ++ '\n' :: ys) = xs :: splitLines ys := by
  induction xs with
  | nil =>
    simp [splitLines]
  | cons c cs ih =>
    have hc : ¬ c = '\n' := by
      intro hcc
      exact h (by simp [hcc])
    have h2 : '\n' ∉ cs := fun hm => h (List.mem_cons_of_mem _ hm)
    rw [List.cons_append]
    rw [splitLines, if_neg hc, ih h2]

lemma splitLines_segment_lines (segs : List Segment)
    (h : ∀ s ∈ segs, '\n' ∉ segment_body s) :
    splitLines ((segs.map segment_line).flatten) = segs.map segment_body := by
  induction segs with
  | nil => simp [splitLines]
  | cons s rest ih =>
    simp only [List.map_cons, List.flatten_cons]
    rw [segment_line, List.append_assoc, List.singleton_append]
    rw [splitLines_append _ _ (h s (by simp))]
    rw [ih (fun t ht => h t (by simp [ht]))]

lemma segment_body_no_newline (s : Segment) (h1 : '\n' ∉ s.start)
    (h2 : '\n' ∉ s.stop) (h3 : '\n' ∉ s.text) : '\n' ∉ segment_body s := by
  rw [segment_body]
  intro hm
  simp only [List.mem_append] at hm
  rcases hm with ((((hm | hm) | hm) | hm) | hm) | hm
  · exact absurd hm (by decide)
  · exact h1 hm
  · exact absurd hm (by decide)
  · exact h2 hm
  · exact absurd hm (by decide)
  · exact h3 hm

/-- C3 (amended): for every segment sequence whose fields contain no newline,
the markdown writer produces the header line, then a BLANK line (the header
write ends in two newlines), then exactly one line per segment of the form
`**<start> - <end>**: <text>`, in input order — one more line than the claim
states: the three-segment pipeline example yields 5 lines, not 4. -/
theorem C3_markdown_lines (segs : List Segment)
    (h : ∀ s ∈ segs, '\n' ∉ s.start ∧ '\n' ∉ s.stop ∧ '\n' ∉ s.text) :
    splitLines (save_transcript_markdown segs)
      = "# Video Transcript".data :: [] :: segs.map segment_body := by
  rw [save_transcript_markdown]
  have hh : "# Video Transcript\n\n".data
      = "# Video Transcript".data ++ [ '\n', '\n'] := by decide
  rw [hh, List.append_assoc]
  have hsplit : ([ '\n', '\n'] : List Char) ++ (List.map segment_line segs).flatten
      = '\n' :: '\n' :: (List.map segment_line segs).flatten := rfl
  rw [hsplit]
  rw [splitLines_append _ _ (by decide), splitLines_newline_cons]
  rw [splitLines_segment_lines segs
    (fun t ht => segment_body_no_newline t (h t ht).1 (h t ht).2.1 (h t ht).2.2)]

/-- The three raw timed spans of the end-to-end scenario in the spec:
(0,5,"hello"), (5,12,"world test"), (12,30,"final segment"). -/
def exampleRaw : List RawSegment :=
  [⟨0, 5, "hello".data⟩, ⟨5, 12, "world test".data⟩,
    ⟨12, 30, "final segment".data⟩]

/-- The segments the pipeline yields for `exampleRaw`. -/
def exampleSegments : List Segment := exampleRaw.map segment_of_raw

lemma exampleSegments_eq :
    exampleSegments
      = [⟨"00:00".data, "00:05".data, "hello".data⟩,
          ⟨"00:05".data, "00:12".data, "world test".data⟩,
          ⟨"00:12".data, "00:30".data, "final segment".data⟩] := by
  have e0 : ⌊(0 : ℚ)⌋ = 0 := by norm_num
  have e5 : ⌊(5 : ℚ)⌋ = 5 := by norm_num
  have e12 : ⌊(12 : ℚ)⌋ = 12 := by norm_num
  have e30 : ⌊(30 : ℚ)⌋ = 30 := by norm_num
  simp only [exampleSegments, exampleRaw, List.map_cons, List.map_nil,
    segment_of_raw, format_timestamp, e0, e5, e12, e30]
  decide

/-- C3 counterexample: on the three pipeline segments of the end-to-end
scenario, the file written by the markdown writer has 5 lines (header, blank,
three segment lines), not the 4 lines the claim states. -/
theorem C3_counterexample :
    (splitLines (save_transcript_markdown exampleSegments)).length ≠ 4 := by
  rw [exampleSegments_eq]
  decide

/-- C3 witness: the amended line structure instantiated on the three pipeline
segments of the end-to-end scenario. -/
theorem C3_markdown_lines_witness :
    (∀ s ∈ exampleSegments, '\n' ∉ s.start ∧ '\n' ∉ s.stop ∧ '\n' ∉ s.text) ∧
    splitLines (save_transcript_markdown exampleSegments)
      = "# Video Transcript".data :: [] :: exampleSegments.map segment_body :=
  ⟨by rw [exampleSegments_eq]; decide,
    C3_markdown_lines exampleSegments (by rw [exampleSegments_eq]; decide)⟩

/-! ## Section generator (src/ai.py, generate_tutorial_notes lines 35-66)

Python:
```
final_notes = "# Detailed Video Tutorial\n\n"
for i, chunk in enumerate(chunks):
    prompt = f"""..."""            # fixed template with the chunk spliced in
    try:
        response = ollama.chat(model=model, messages=[...])
        content = response["message"]["content"]
        final_notes += f"\n\n## Part {i+1}\n\n{content}"
    except Exception as e:
        final_notes += f"\n\n## Part {i+1} (Error)\n\n[Failed to generate notes for this section: {e}]\n"
return final_notes
```
The generation backend is an external collaborator: it is modelled as a
function from the rendered prompt to either generated text or an error. -/

/-- The generation backend collaborator: maps a prompt to generated text or to
the exception text it raises. -/
def Backend : Type := List Char → Except (List Char) (List Char)

/-- The prompt template of `generate_tutorial_notes`, with the window text
substituted into its designated slot. -/
def prompt_for (chunk : List Char) : List Char :=
  "\nYou are a technical documenter. Your task is to convert the following video transcript segment into a detailed Step-by-Step Tutorial Guide.\n\n**Rules:**\n1. RETAIN ALL DETAILS: Do not summarize into vague points. Capture every click, command, setting, and code snippet.\n2. STRUCTURE: Use clear headings (##), bullet points, and code blocks.\n3. CONTEXT: If a step is a continuation from the previous part, continue logically.\n4. NO FLUFF: Remove conversational filler (e.g., \"Um\", \"So guys\", \"Welcome back\"). Keep it strictly instructional.\n\n**Transcript Segment:**\n".data
    ++ chunk ++ "\n\n**Detailed Tutorial:**\n".data

/-- The text appended for window `i` (0-based) on backend success. -/
def ok_section (i : Nat) (content : List Char) : List Char :=
  "\n\n## Part ".data ++ (Nat.repr (i + 1)).data ++ "\n\n".data ++ content

/-- The text appended for window `i` (0-based) on backend failure. -/
def err_section (i : Nat) (e : List Char) : List Char :=
  "\n\n## Part ".data ++ (Nat.repr (i + 1)).data
    ++ " (Error)\n\n[Failed to generate notes for this section: ".data ++ e ++ "]\n".data

/-- The per-window loop of `generate_tutorial_notes`: one section per window,
rendered from that window's own backend result, the failure branch taken when
the backend raises. -/
def sections_from (backend : Backend) : List (List Char) → Nat → List (List Char)
  | [], _ => []
  | c :: rest, i =>
    (match backend (prompt_for c) with
      | Except.ok content => ok_section i content
      | Except.error e => err_section i e) :: sections_from backend rest (i + 1)

/-- The document assembled from an already-computed window list: the fixed
title followed by the concatenated sections. -/
def generate_from_chunks (backend : Backend) (cs : List (List Char)) : List Char :=
  "# Detailed Video Tutorial\n\n".data ++ (sections_from backend cs 0).flatten

/-- `generate_tutorial_notes` of src/ai.py: chunk the transcript, then run the
per-window generation loop. -/
def generate_tutorial_notes (backend : Backend) (transcript_text : List Char) : List Char :=
  generate_from_chunks backend (chunks transcript_text)

/-- C4: partial-failure isolation. First: the loop never aborts — every window
yields exactly one section whatever the backend does. Second: in the claim's
scenario (3 windows, the backend raising exactly on window 2), the assembled
document is the fixed title followed by a correct `## Part 1` section, an
explicit `## Part 2 (Error)` failure section naming the error, and a correct
`## Part 3` section, in that order. -/
theorem C4_partial_failure_isolation :
    (∀ (backend : Backend) (cs : List (List Char)) (i : Nat),
        (sections_from backend cs i).length = cs.length) ∧
    (∀ (backend : Backend) (c1 c2 c3 e s1 s3 : List Char),
        backend (prompt_for c1) = Except.ok s1 →
        backend (prompt_for c2) = Except.error e →
        backend (prompt_for c3) = Except.ok s3 →
        generate_from_chunks backend [c1, c2, c3]
          = "# Detailed Video Tutorial\n\n".data
              ++ ok_section 0 s1 ++ err_section 1 e ++ ok_section 2 s3) := by
  constructor
  · intro backend cs
    induction cs with
    | nil => intro i; rfl
    | cons c rest ih =>
      intro i
      simp only [sections_from, List.length_cons, ih]
  · intro backend c1 c2 c3 e s1 s3 h1 h2 h3
    simp only [generate_from_chunks, sections_from, h1, h2, h3,
      List.flatten_cons, List.flatten_nil, List.append_nil, List.append_assoc]

/-- A concrete backend for the witness: it raises exactly on the prompt built
from window "b". -/
def testBackend : Backend := fun p =>
  if p = prompt_for "b".data then Except.error "down".data else Except.ok "OK".data

/-- C4 witness: partial-failure isolation instantiated on the three concrete
windows "a", "b", "c" with a backend that fails exactly on window "b". -/
theorem C4_partial_failure_isolation_witness :
    (testBackend (prompt_for "a".data) = Except.ok "OK".data ∧
      testBackend (prompt_for "b".data) = Except.error "down".data ∧
      testBackend (prompt_for "c".data) = Except.ok "OK".data) ∧
    generate_from_chunks testBackend ["a".data, "b".data, "c".data]
      = "# Detailed Video Tutorial\n\n".data
          ++ ok_section 0 "OK".data ++ err_section 1 "down".data
          ++ ok_section 2 "OK".data :=
  ⟨⟨by rfl, by rfl, by rfl⟩,
    C4_partial_failure_isolation.2 testBackend "a".data "b".data "c".data
      "down".data "OK".data "OK".data (by rfl) (by rfl) (by rfl)⟩

/-! ## Generated-notes path (main.py lines 68-77)

Python:
```
ai_output_path = args.output.replace(".md", "_notes.md") if args.output else f"{base_name}_notes.md"
```
`str.replace` scans left to right and replaces every non-overlapping
occurrence of the pattern; if the pattern does not occur, the string is
returned unchanged. The fuel argument (instantiated with the string length)
makes the scan structurally recursive; one character or one whole match is
consumed per step, so the string length is always enough fuel. -/

def replaceAllF (pat rep : List Char) : Nat → List Char → List Char
  | _, [] => []
  | 0, s => s
  | fuel + 1, c :: cs =>
    if pat ≠ [] ∧ pat.isPrefixOf (c :: cs) then
      rep ++ replaceAllF pat rep fuel ((c :: cs).drop pat.length)
    else
      c :: replaceAllF pat rep fuel cs

/-- Python str.replace (for a non-empty pattern). -/
def pyReplace (s pat rep : List Char) : List Char := replaceAllF pat rep s.length s

/-- The notes path computed at main.py line 70: for a user-supplied `--output`
replace every occurrence of ".md" by "_notes.md"; otherwise append
"_notes.md" to the video stem. -/
def ai_output_path (output : Option (List Char)) (base_name : List Char) : List Char :=
  match output with
  | some p => pyReplace p ".md".data "_notes.md".data
  | none => base_name ++ "_notes.md".data

/-- C7 counterexample: with `--output out.txt` the notes path is "out.txt"
itself — `str.replace` finds no ".md" and changes nothing — which is not the
stem suffixed with "_notes" plus ".md" (it does not even end in "_notes.md"),
and it collides with the transcript path. -/
theorem C7_counterexample :
    ai_output_path (some "out.txt".data) "video".data = "out.txt".data ∧
    ¬ ("_notes.md".data <:+ ai_output_path (some "out.txt".data) "video".data) := by
  constructor
  · rfl
  · decide

lemma replaceAllF_md_boundary (c : Char) (cs : List Char)
    (h : ¬ (".md".data <:+: (c :: cs)))
    (hp : ".md".data.isPrefixOf (c :: cs ++ ".md".data) = true) : False := by
  cases cs with
  | nil =>
    simp only [List.nil_append, List.isPrefixOf, Bool.and_eq_true, beq_iff_eq] at hp
    exact absurd hp.2.1 (by decide)
  | cons c2 cs2 =>
    cases cs2 with
    | nil =>
      simp only [List.cons_append, List.nil_append, List.isPrefixOf,
        Bool.and_eq_true, beq_iff_eq] at hp
      exact absurd hp.2.2.1 (by decide)
    | cons c3 rest =>
      simp only [List.cons_append, List.isPrefixOf, Bool.and_eq_true,
        beq_iff_eq] at hp
      obtain ⟨h1, h2, h3, -⟩ := hp
      exact h ⟨[], rest, by simp [← h1, ← h2, ← h3]⟩

lemma replaceAllF_md (rep : List Char) (stem : List Char) :
    ∀ (fuel : Nat), (stem ++ ".md".data).length ≤ fuel →
    ¬ (".md".data <:+: stem) →
    replaceAllF ".md".data rep fuel (stem ++ ".md".data) = stem ++ rep := by
  induction stem with
  | nil =>
    intro fuel hf _
    match fuel, hf with
    | fuel + 3, _ =>
      simp [replaceAllF]
  | cons c cs ih =>
    intro fuel hf h
    match fuel, hf with
    | fuel + 1, hf =>
      rw [List.cons_append, replaceAllF,
        if_neg (fun hc => replaceAllF_md_boundary c cs h hc.2)]
      rw [ih fuel (by simpa using Nat.le_of_succ_le_succ (by simpa using hf))
        (fun hin => h (List.infix_cons hin))]
      rfl

/-- C7 (amended): when `--output` is not supplied the notes file is written at
`<video-stem>_notes.md`; when `--output` is supplied, the path the code
computes equals `<stem>_notes.md` only for outputs of the form `<stem>.md`
where ".md" does not occur inside the stem — in general the code replaces
every occurrence of ".md" anywhere in the given path (and leaves a path
without ".md" unchanged), rather than suffixing the stem. -/
theorem C7_notes_path (base_name stem : List Char)
    (h : ¬ (".md".data <:+: stem)) :
    ai_output_path none base_name = base_name ++ "_notes.md".data ∧
    ai_output_path (some (stem ++ ".md".data)) base_name
      = stem ++ "_notes.md".data := by
  refine ⟨rfl, ?_⟩
  simp only [ai_output_path, pyReplace]
  exact replaceAllF_md "_notes.md".data stem _ (Nat.le_refl _) h

/-- C7 witness: the amended path law instantiated at `--output out.md` with
video stem "video". -/
theorem C7_notes_path_witness :
    (¬ (".md".data <:+: "out".data)) ∧
    (ai_output_path none "video".data = "video".data ++ "_notes.md".data ∧
      ai_output_path (some ("out".data ++ ".md".data)) "video".data
        = "out".data ++ "_notes.md".data) :=
  ⟨by decide, C7_notes_path "video".data "out".data (by decide)⟩

/-! ## Pipeline orchestrator (main.py, main lines 9-90)

Python control flow:
```
if not os.path.isfile(video_path): sys.exit(1)        # before the try block
try:
    audio_file = extract_audio(video_path, temp_audio_path)
    segments = transcribe_audio(audio_file, ...)       # generator: runs nothing yet
    all_segments = list(segments)                      # whisper errors surface here
    save_transcript(all_segments, output_path, ...)
    if args.ai:
        if not check_ollama_server():
            print("...Skipping AI note generation.")   # generation skipped, exit 0
        else:
            full_text = "\n".join([f"[{s[...]}-{s[...]}] {s[...]}" for s in all_segments])
            notes = generate_tutorial_notes(full_text, ...)   # one ollama.chat per chunk
            open(ai_output_path, "w").write(notes)
except Exception: sys.exit(1)                          # any stage failure: exit 1
finally:
    if not args.keep_audio and os.path.exists(temp_audio_path):
        cleanup_audio(temp_audio_path)                 # runs on every path out of the try
```
External collaborators (ffmpeg, whisper, the file system, the ollama probe)
are oracle fields of `World`, each recording that collaborator's outcome for
the run. -/

/-- Command-line options of main.py that the orchestrator claims depend on. -/
structure Args where
  output : Option (List Char)
  keepAudio : Bool
  ai : Bool

/-- Outcomes of the external collaborators during one run. -/
structure World where
  /-- `os.path.isfile(video_path)` at main.py line 23. -/
  videoExists : Bool
  /-- outcome of the ffmpeg extraction (creates the temp audio file on success). -/
  extract : Except (List Char) Unit
  /-- whether a partial temp audio file is left behind when extraction fails. -/
  tempFileAfterFailedExtract : Bool
  /-- outcome of whisper decoding: the raw timed spans, or a mid-stream error. -/
  whisper : Except (List Char) (List RawSegment)
  /-- outcome of writing the transcript file. -/
  save : Except (List Char) Unit
  /-- whether `ollama.list()` succeeds, i.e. the backend liveness probe. -/
  serverUp : Bool
  /-- the generation backend (used only after a successful probe). -/
  backend : Backend
  /-- outcome of writing the notes file. -/
  notesWrite : Except (List Char) Unit

/-- Observable outcome of one run of `main`. -/
structure RunResult where
  /-- does the temp audio file exist once `main` has returned? -/
  tempAudioExists : Bool
  /-- was the transcript file fully written? -/
  transcriptWritten : Bool
  /-- was the notes file fully written? -/
  notesWritten : Bool
  /-- how many windows were sent to the generation backend (`ollama.chat` calls)? -/
  backendCalls : Nat
  /-- process exit code. -/
  exitCode : Nat

/-- `check_ollama_server` of src/ai.py: returns True exactly when the
`ollama.list()` probe succeeds. -/
def check_ollama_server (w : World) : Bool := w.serverUp

/-- The flattened transcript text handed to `generate_tutorial_notes`
(main.py line 68). -/
def full_text_of (segs : List Segment) : List Char :=
  List.intercalate "\n".data
    (segs.map (fun s => "[".data ++ s.start ++ "-".data ++ s.stop ++ "] ".data ++ s.text))

/-- Number of `ollama.chat` calls made by `generate_tutorial_notes`: exactly
one per window, the try/except around the call never skips or repeats one. -/
def ollama_chat_calls (transcript_text : List Char) : Nat :=
  (chunks transcript_text).length

/-- The try block of `main`: runs the stages in order, stopping at the first
collaborator failure (caught by the except block, which exits with code 1).
Result fields: temp-audio-exists, transcript-written, notes-written,
backend-calls, exit-code — all before the finally clause runs. -/
def tryBody (a : Args) (w : World) : Bool × Bool × Bool × Nat × Nat :=
  match w.extract with
  | Except.error _ => (w.tempFileAfterFailedExtract, false, false, 0, 1)
  | Except.ok _ =>
    match w.whisper with
    | Except.error _ => (true, false, false, 0, 1)
    | Except.ok raws =>
      match w.save with
      | Except.error _ => (true, false, false, 0, 1)
      | Except.ok _ =>
        match a.ai with
        | false => (true, true, false, 0, 0)
        | true =>
          match check_ollama_server w with
          | false => (true, true, false, 0, 0)
          | true =>
            let fullText := full_text_of (raws.map segment_of_raw)
            match w.notesWrite with
            | Except.error _ => (true, true, false, ollama_chat_calls fullText, 1)
            | Except.ok _ => (true, true, true, ollama_chat_calls fullText, 0)

/-- The finally clause of `main`: remove the temp audio file unless
`--keep-audio` was given. Runs on every path out of the try block, including
the except-and-exit path. -/
def runFinally (keepAudio : Bool) (tempExists : Bool) : Bool :=
  if (!keepAudio && tempExists) then false else tempExists

/-- One full run of `main` under the given options and collaborator outcomes. -/
def mainRun (a : Args) (w : World) : RunResult :=
  match w.videoExists with
  | false => ⟨false, false, false, 0, 1⟩
  | true =>
    let r := tryBody a w
    ⟨runFinally a.keepAudio r.1, r.2.1, r.2.2.1, r.2.2.2.1, r.2.2.2.2⟩

/-- C5: guaranteed cleanup — with `--keep-audio` unset, the temp audio path
does not exist after the run, whatever the collaborators did (success, or a
failure in any stage): the finally clause runs on every termination path. -/
theorem C5_guaranteed_cleanup (a : Args) (w : World) (h : a.keepAudio = false) :
    (mainRun a w).tempAudioExists = false := by
  rw [mainRun]
  cases w.videoExists
  · rfl
  · show runFinally a.keepAudio (tryBody a w).1 = false
    rw [h]
    cases (tryBody a w).1 <;> rfl

/-- Options for the witness runs: no explicit output path, audio not kept. -/
def crashArgs : Args := ⟨none, false, false⟩

/-- A witness world in which ffmpeg extraction fails, leaving a partial temp
audio file behind. -/
def crashWorld : World :=
  ⟨true, Except.error "ffmpeg".data, true, Except.ok [], Except.ok (), false,
    fun _ => Except.ok [], Except.ok ()⟩

/-- C5 witness: cleanup instantiated on a concrete run in which extraction
failed leaving a partial temp file behind. -/
theorem C5_guaranteed_cleanup_witness :
    crashArgs.keepAudio = false ∧
    (mainRun crashArgs crashWorld).tempAudioExists = false :=
  ⟨rfl, C5_guaranteed_cleanup crashArgs crashWorld rfl⟩

/-- C6: backend availability precheck — when generation was requested but the
liveness probe fails, no window is ever sent to the backend, no notes file is
written, the generation stage is skipped (exit code 0), and the transcript
written by the earlier stage is kept. -/
theorem C6_backend_precheck (a : Args) (w : World) (raws : List RawSegment)
    (hv : w.videoExists = true) (hai : a.ai = true) (hs : w.serverUp = false)
    (he : w.extract = Except.ok ()) (hw : w.whisper = Except.ok raws)
    (hsv : w.save = Except.ok ()) :
    (mainRun a w).backendCalls = 0 ∧ (mainRun a w).notesWritten = false ∧
    (mainRun a w).transcriptWritten = true ∧ (mainRun a w).exitCode = 0 := by
  have hbody : tryBody a w = (true, true, false, 0, 0) := by
    rw [tryBody, he, hw, hsv, hai, check_ollama_server, hs]
  have hmain : mainRun a w = ⟨runFinally a.keepAudio true, true, false, 0, 0⟩ := by
    rw [mainRun, hv]
    show (let r := tryBody a w;
      (⟨runFinally a.keepAudio r.1, r.2.1, r.2.2.1, r.2.2.2.1, r.2.2.2.2⟩ : RunResult)) = _
    rw [hbody]
  rw [hmain]
  exact ⟨rfl, rfl, rfl, rfl⟩

/-- Options for the precheck witness: generation requested. -/
def probeArgs : Args := ⟨none, false, true⟩

/-- A witness world in which every stage succeeds but the ollama liveness
probe fails. -/
def probeWorld : World :=
  ⟨true, Except.ok (), false, Except.ok [], Except.ok (), false,
    fun _ => Except.ok [], Except.ok ()⟩

/-- C6 witness: the precheck law instantiated on a concrete run with the
backend probe failing. -/
theorem C6_backend_precheck_witness :
    (probeWorld.videoExists = true ∧ probeArgs.ai = true ∧
      probeWorld.serverUp = false ∧ probeWorld.extract = Except.ok () ∧
      probeWorld.whisper = Except.ok [] ∧ probeWorld.save = Except.ok ()) ∧
    ((mainRun probeArgs probeWorld).backendCalls = 0 ∧
      (mainRun probeArgs probeWorld).notesWritten = false ∧
      (mainRun probeArgs probeWorld).transcriptWritten = true ∧
      (mainRun probeArgs probeWorld).exitCode = 0) :=
  ⟨⟨rfl, rfl, rfl, rfl, rfl, rfl⟩,
    C6_backend_precheck probeArgs probeWorld [] rfl rfl rfl rfl rfl rfl⟩

end VideoToNotes
